import Mathlib

/-!
Verification of the excel-field-analyzer classification core.

Shallow embedding conventions:
- Python strings are Lean `String` (a list of unicode characters, matching
  Python's per-character semantics for `in`, `len`, slicing and `replace`).
- Python floats that only feed `>`/`<` comparisons are embedded as `ℚ`;
  the one place a float is rendered into a note string uses a simple
  `num/den` rendering, since no logic ever inspects that text.
- The `0.8` threshold comparison `count/len > 0.8` is embedded exactly as
  `5 * count > 4 * len`: for `len ≤ 20` the IEEE-double comparison in the
  source agrees with the rational one (equality cases hit the same double).
- Python's randomized `hash` is a parameter `hashF : String → Nat`.
- Interpolated fragments of Python diagnostic messages are elided where no
  downstream check reads them; the substrings the scoring logic does check
  (the critical tag, the word field, the severity marker) are kept verbatim.
-/

/-! ## String utilities (the Python substring, replace, lower and strip operations) -/

def isLowerAZ (c : Char) : Bool := 'a' ≤ c && c ≤ 'z'

def lowerAscii (s : String) : String := ⟨s.toList.map Char.toLower⟩

def isSubL (p : List Char) : List Char → Bool
  | [] => p.isEmpty
  | c :: t => p.isPrefixOf (c :: t) || isSubL p t

/-- Python `p in s` (substring containment). -/
def occursIn (p s : String) : Bool := isSubL p.toList s.toList

def removeFirstL (p : List Char) : List Char → List Char
  | [] => []
  | c :: t => if p.isPrefixOf (c :: t) then (c :: t).drop p.length else c :: removeFirstL p t

/-- Python replace with count 1: delete the leftmost occurrence of `p`. -/
def removeFirstStr (p s : String) : String := ⟨removeFirstL p.toList s.toList⟩

def removeAllL (p : List Char) : List Char → List Char
  | [] => []
  | c :: t =>
    if h : p ≠ [] ∧ p.isPrefixOf (c :: t) = true then removeAllL p ((c :: t).drop p.length)
    else c :: removeAllL p t
termination_by s => s.length
decreasing_by
  · simp only [List.length_drop, List.length_cons]
    have hp : 0 < p.length := List.length_pos.mpr h.1
    omega
  · simp [Nat.lt_succ_iff]

/-- Python replace with empty replacement: delete every non-overlapping occurrence, left to right. -/
def removeAllStr (p s : String) : String :=
  if p = "" then s else ⟨removeAllL p.toList s.toList⟩

def containsAnyKw (kws : List String) (s : String) : Bool := kws.any (fun k => occursIn k s)

/-- Python `s.startswith(p)`. -/
def startsW (p s : String) : Bool := p.toList.isPrefixOf s.toList

/-- Python `s.endswith(p)`. -/
def endsW (p s : String) : Bool := p.toList.reverse.isPrefixOf s.toList.reverse

/-- Python `s.strip()` (whitespace both ends). -/
def strip (s : String) : String :=
  ⟨((s.toList.dropWhile Char.isWhitespace).reverse.dropWhile Char.isWhitespace).reverse⟩

def splitUndAux : List Char → List (List Char)
  | [] => [[]]
  | c :: t =>
    match splitUndAux t with
    | [] => [[c]]
    | h :: rs => if c = '_' then [] :: h :: rs else (c :: h) :: rs

/-- Python `s.split(sep)` for the one-character separator used by the code. -/
def splitUnd (s : String) : List String := (splitUndAux s.toList).map (fun l => ⟨l⟩)

/-- Python `sep.join(parts)`. -/
def joinWith (sep : String) : List String → String
  | [] => ""
  | [x] => x
  | x :: y :: t => x ++ sep ++ joinWith sep (y :: t)

def distinctCount (l : List String) : Nat :=
  (l.foldl (fun acc x => if acc.contains x then acc else acc ++ [x]) []).length

/-! ## Stable descending sort by a numeric key (Python `sort(key=..., reverse=True)`) -/

def insKey {α : Type} (key : α → Nat) (x : α) : List α → List α
  | [] => [x]
  | y :: ys => if key y ≤ key x then x :: y :: ys else y :: insKey key x ys

def sortKey {α : Type} (key : α → Nat) (l : List α) : List α := l.foldr (insKey key) []

theorem mem_insKey {α : Type} (key : α → Nat) (x : α) (l : List α) (a : α) :
    a ∈ insKey key x l ↔ a = x ∨ a ∈ l := by
  induction l with
  | nil => simp [insKey]
  | cons y ys ih =>
    simp only [insKey]
    split
    · simp
    · simp only [List.mem_cons, ih]
      tauto

theorem perm_insKey {α : Type} (key : α → Nat) (x : α) (l : List α) :
    (insKey key x l).Perm (x :: l) := by
  induction l with
  | nil => simp [insKey]
  | cons y ys ih =>
    simp only [insKey]
    split
    · exact List.Perm.refl _
    · exact (List.Perm.cons y ih).trans (List.Perm.swap x y ys)

theorem perm_sortKey {α : Type} (key : α → Nat) (l : List α) :
    (sortKey key l).Perm l := by
  induction l with
  | nil => simp [sortKey]
  | cons y ys ih =>
    simpa [sortKey] using (perm_insKey key y (sortKey key ys)).trans (List.Perm.cons y ih)

theorem mem_sortKey {α : Type} (key : α → Nat) (l : List α) (a : α) :
    a ∈ sortKey key l ↔ a ∈ l := (perm_sortKey key l).mem_iff

theorem pairwise_insKey {α : Type} (key : α → Nat) (x : α) (l : List α)
    (h : l.Pairwise (fun a b => key b ≤ key a)) :
    (insKey key x l).Pairwise (fun a b => key b ≤ key a) := by
  induction l with
  | nil => simp [insKey]
  | cons y ys ih =>
    simp only [insKey]
    rcases List.pairwise_cons.mp h with ⟨hy, hys⟩
    split
    · refine List.pairwise_cons.mpr ⟨?_, h⟩
      intro b hb
      rcases List.mem_cons.mp hb with hb | hb
      · subst hb; assumption
      · exact le_trans (hy b hb) (by assumption)
    · refine List.pairwise_cons.mpr ⟨?_, ih hys⟩
      intro b hb
      rcases (mem_insKey key x ys b).mp hb with hb | hb
      · subst hb; omega
      · exact hy b hb

theorem pairwise_sortKey {α : Type} (key : α → Nat) (l : List α) :
    (sortKey key l).Pairwise (fun a b => key b ≤ key a) := by
  induction l with
  | nil => simp [sortKey]
  | cons y ys ih => exact pairwise_insKey key y _ ih

/-- Stable descending sort of (phrase, token) pairs by phrase length, the
effect of the sorted call with key len and reverse true. -/
def sortLen (l : List (String × String)) : List (String × String) :=
  sortKey (fun kv => kv.1.length) l

/-! ## MappingValidator (src/scripts/mapping_validator.py) -/

def namingMatch (en : String) : Bool :=
  match en.toList with
  | [] => false
  | c :: rest => isLowerAZ c && rest.all (fun d => isLowerAZ d || d.isDigit || d = '_')

def dropDigitsRev : List Char → Nat × List Char
  | [] => (0, [])
  | c :: t => if c.isDigit then ((dropDigitsRev t).1 + 1, (dropDigitsRev t).2) else (0, c :: t)

/-- Matches the regex of an underscore-field-underscore-digits suffix (re.search anchored at the end). -/
def endsInFieldNum (en : String) : Bool :=
  let r := dropDigitsRev en.toList.reverse
  r.1 ≥ 1 && "_field_".toList.reverse.isPrefixOf r.2

/-- Matches the regex of an underscore-digits suffix (re.search anchored at the end). -/
def endsInNum (en : String) : Bool :=
  let r := dropDigitsRev en.toList.reverse
  r.1 ≥ 1 && (match r.2 with | '_' :: _ => true | _ => false)

/-- Embeds `MappingValidator.check_naming_convention`.  The final digit-suffix
branch of the source is a `pass` (no effect) and is therefore not represented. -/
def checkNamingConvention (en : String) : Bool × String :=
  if en = "" then (false, "英文字段名为空")
  else if !(namingMatch en) then
    (false, "不符合snake_case命名规范（应为小写字母、数字和下划线）")
  else if en.length > 50 then (false, "字段名过长，建议不超过50字符")
  else if startsW "_" en || endsW "_" en then (false, "字段名不应以下划线开头或结尾")
  else if occursIn "__" en then (false, "字段名包含连续下划线")
  else if en = "field" || en = "unknown_field" || startsW "field_" en then
    (false, "❌ 严重：使用了通用占位符field，完全缺乏业务语义")
  else if endsW "_field" en then
    (false, "❌ 严重：使用占位符后缀_field，应改为明确的业务术语")
  else if endsInFieldNum en then
    (false, "❌ 严重：包含_field_数字后缀，存在字段重复或命名冲突")
  else (true, "")

def domainTerms : List (String × List String) :=
  [("time", ["time", "date", "datetime", "start", "end", "confirm", "refresh", "signing"]),
   ("organization", ["organization", "branch", "center", "company", "department", "agent", "broker"]),
   ("finance", ["premium", "fee", "amount", "cost", "price", "commission", "discount", "tax",
                "vat", "ncd", "ratio", "coefficient"]),
   ("product", ["insurance", "policy", "coverage", "product", "insured_amount", "endorsement"]),
   ("vehicle", ["vehicle", "car", "license_plate", "vin", "engine", "model", "brand", "seats",
                "tonnage", "displacement", "weight"]),
   ("flag", ["is", "has", "flag", "type", "category", "level", "status", "indicator"]),
   ("general", ["customer", "client", "name", "id_number", "age", "gender", "source", "nature",
                "applicant", "insured", "owner"])]

/-- Embeds `MappingValidator.check_group_consistency`. -/
def checkGroupConsistency (_cnName enName group : String) : Bool × String :=
  match domainTerms.lookup group with
  | none => (false, "未知分组" ++ group)
  | some terms =>
    let enTokens := splitUnd (lowerAscii enName)
    if enTokens.any (fun t => terms.contains t) then (true, "")
    else if group = "general" then (true, "")
    else (false, "字段名缺少" ++ group ++ "分组的领域术语")

def expectedMappings : List (String × String) :=
  [("时间", "time"), ("日期", "date"), ("保费", "premium"), ("费用", "fee"),
   ("机构", "organization"), ("支公司", "branch"), ("险种", "insurance_type"),
   ("车牌", "license_plate"), ("客户", "customer"), ("保单", "policy"),
   ("业务员", "agent"), ("是否", "is"), ("标识", "flag"), ("金额", "amount"),
   ("折扣", "discount"), ("系数", "coefficient"), ("确认", "confirm"),
   ("投保", "insure"), ("被保险人", "insured"), ("投保人", "applicant"),
   ("证件号", "id_number"), ("年龄", "age"), ("性别", "gender"),
   ("车型", "vehicle_model"), ("车架号", "vin"), ("发动机", "engine"),
   ("签单", "signing"), ("批改", "endorsement"), ("保额", "insured_amount"),
   ("手续费", "commission"), ("比例", "ratio"), ("座位", "seats"),
   ("吨位", "tonnage"), ("排量", "displacement")]

def hasChineseChar (s : String) : Bool :=
  s.toList.any (fun c => 0x4e00 ≤ c.toNat && c.toNat ≤ 0x9fff)

/-- Embeds `MappingValidator.check_semantic_accuracy`. -/
def checkSemanticAccuracy (cnName enName : String) : Int × List String :=
  let enLower := lowerAscii enName
  let st1 := expectedMappings.foldl
    (fun (acc : Int × List String) kv =>
      if occursIn kv.1 cnName && !(occursIn kv.2 enLower) then
        (acc.1 - 15, acc.2 ++ ["中文包含" ++ kv.1 ++ "但英文缺少" ++ kv.2])
      else acc) (100, [])
  let st2 := if hasChineseChar enName then (st1.1 - 30, st1.2 ++ ["英文字段名包含中文字符"])
             else st1
  let st3 := if (splitUnd enName).length = 1 && cnName.length > 4 then
               (st2.1 - 10, st2.2 ++ ["中文较长但英文过于简化"])
             else st2
  let st4 := if endsInNum enName then
               (st3.1 - 5, st3.2 ++ ["字段名有数字后缀，可能存在重复定义"])
             else st3
  (max 0 st4.1, st4.2)

/-- Embeds `MappingValidator.check_dtype_consistency`. -/
def checkDtypeConsistency (cnName dtype enName : String) : Bool × String :=
  let issues : List String :=
    (if containsAnyKw ["保单号", "批单号", "证件号", "单号"] cnName && dtype = "number" then
       ["❌ 严重：标记为number，应为string（可能包含字母或前导零，number会丢失）"] else [])
    ++ (if containsAnyKw ["时间", "日期", "起期", "止期", "生效", "到期"] cnName && dtype ≠ "datetime" then
       ["❌ 严重：应为datetime类型，实际为" ++ dtype] else [])
    ++ (if startsW "是否" cnName && !(["bool", "boolean", "enum"].contains dtype) then
       ["❌ 严重：应为bool或enum类型，不应使用string（当前：" ++ dtype ++ "）"] else [])
    ++ (if containsAnyKw ["保费", "费用", "金额", "价格", "赔款", "手续费", "税"] cnName &&
          dtype = "number" && !(occursIn "_yuan" enName || occursIn "_amount" enName) then
       ["⚠️ 金额字段缺少单位标注（建议 _yuan 或 currency_yuan格式）"] else [])
    ++ (if containsAnyKw ["比例", "折扣", "系数"] cnName && dtype = "number" &&
          !(["_ratio", "_percent", "_coefficient", "_rate"].any (fun suf => occursIn suf enName)) then
       ["⚠️ 缺少格式标注（建议 _percent、_ratio 或 _coefficient）"] else [])
  if issues ≠ [] then (false, joinWith "; " issues) else (true, "")

/-- Embeds `MappingValidator._suggest_better_mapping`. -/
def suggestLoop : List (String × String) → List String → String → List String
  | [], tokens, _ => tokens
  | kv :: rest, tokens, remaining =>
    if occursIn kv.1 remaining then
      suggestLoop rest (tokens ++ [kv.2]) (removeFirstStr kv.1 remaining)
    else suggestLoop rest tokens remaining

def suggestBetterMapping (cnName : String) : String :=
  let tokens := suggestLoop (sortLen expectedMappings) [] cnName
  if tokens ≠ [] then joinWith "_" tokens else ""

structure RawMapping where
  cnName : String
  fieldName : String
  group : String
  dtype : String
  role : String
  aggregation : String
deriving DecidableEq

structure VResult where
  overallScore : Int
  issues : List String
  warnings : List String
  suggestions : List String
  qualityLevel : String
  hasCritical : Bool
deriving DecidableEq

def isCriticalIssue (s : String) : Bool := occursIn "❌ 严重" s

/-- Step 7 of `validate_mapping`: the tier thresholds. -/
def tierOf (s : Int) : String :=
  if s ≥ 95 then "excellent"
  else if s ≥ 80 then "good"
  else if s ≥ 65 then "fair"
  else "poor"

/-- Step 8 of `validate_mapping`: a critical issue demotes excellent to good. -/
def capLevel (hasCrit : Bool) (level : String) : String :=
  if hasCrit ∧ level = "excellent" then "good" else level

/-- Embeds `MappingValidator.validate_mapping`: the full per-entry scoring chain.
The input record carries the keys the callers in this repository always
populate (`cn_name`, `field_name`, `group`, `dtype`, `role`, `aggregation`). -/
def validateMapping (m : RawMapping) : VResult :=
  let nc := checkNamingConvention m.fieldName
  let s1 : Int :=
    if nc.1 then 100
    else if occursIn "严重" nc.2 || occursIn "field" (lowerAscii nc.2) then 100 - 40
    else 100 - 20
  let issues1 : List String := if nc.1 then [] else ["命名规范: " ++ nc.2]
  let gc := checkGroupConsistency m.cnName m.fieldName m.group
  let s2 := if gc.1 then s1 else s1 - 15
  let warnings1 : List String := if gc.1 then [] else ["分组一致性: " ++ gc.2]
  let sem := checkSemanticAccuracy m.cnName m.fieldName
  let s3 := min s2 sem.1
  let issues2 := issues1 ++ sem.2
  let dc := checkDtypeConsistency m.cnName m.dtype m.fieldName
  let s4 := if dc.1 then s3 else s3 - 20
  let issues3 := if dc.1 then issues2 else issues2 ++ ["类型一致性: " ++ dc.2]
  let roleBad := containsAnyKw ["评分", "等级", "分数", "级别", "系数"] m.cnName &&
    m.role = "measure" && m.aggregation = "sum"
  let s5 := if roleBad then s4 - 25 else s4
  let issues4 :=
    if roleBad then issues3 ++ ["❌ 严重：不应设置为 role:measure + aggregation:sum，应为维度（dimension）或使用avg聚合"]
    else issues3
  let ratioBad := containsAnyKw ["比例", "系数", "折扣", "率"] m.cnName &&
    m.dtype = "number" && m.aggregation = "sum"
  let s6 := if ratioBad then s5 - 15 else s5
  let warnings2 :=
    if ratioBad then warnings1 ++ ["⚠️ 使用sum聚合不合理，系数类字段应使用avg或none"]
    else warnings1
  let moneyWarn := containsAnyKw ["保费", "费用", "金额", "价格", "赔款", "手续费", "税"] m.cnName &&
    m.role = "measure" && m.aggregation ≠ "sum"
  let warnings3 := if moneyWarn then warnings2 ++ ["⚠️ 是金额字段，建议使用sum聚合"] else warnings2
  let suggestions : List String :=
    if s6 < 70 then
      let sug := suggestBetterMapping m.cnName
      if sug ≠ "" && sug ≠ m.fieldName then ["建议人工审核此映射", "建议英文名: " ++ sug]
      else ["建议人工审核此映射"]
    else []
  let hasCrit := issues4.any isCriticalIssue
  { overallScore := s6, issues := issues4, warnings := warnings3,
    suggestions := suggestions, qualityLevel := capLevel hasCrit (tierOf s6),
    hasCritical := hasCrit }

/-! ## AIFieldMapper (src/scripts/ai_mapper.py) -/

/-- Exact-match table `_init_exact_mappings`: source name → (en_name, group, dtype). -/
def exactMappings : List (String × String × String × String) :=
  [("保单号", "policy_number", "policy", "string"),
   ("保险单号", "policy_number", "policy", "string"),
   ("批单号", "endorsement_number", "policy", "string"),
   ("投保单号", "application_number", "policy", "string"),
   ("保费", "premium", "finance", "number"),
   ("签单保费", "written_premium", "finance", "number"),
   ("商业险保费", "commercial_premium", "finance", "number"),
   ("交强险保费", "compulsory_premium", "finance", "number"),
   ("批改保费", "endorsement_premium", "finance", "number"),
   ("退保保费", "refund_premium", "finance", "number"),
   ("实收保费", "earned_premium", "finance", "number"),
   ("NCD保费", "ncd_premium", "finance", "number"),
   ("NCD基准保费", "ncd_base_premium", "finance", "number"),
   ("赔款", "claim_amount", "finance", "number"),
   ("总赔款", "total_claims", "finance", "number"),
   ("案均赔款", "average_claim", "finance", "number"),
   ("已决赔款", "paid_claims", "finance", "number"),
   ("未决赔款", "outstanding_claims", "finance", "number"),
   ("案件数", "claim_count", "finance", "number"),
   ("出险次数", "claim_frequency", "finance", "number"),
   ("出险频度", "claim_frequency", "finance", "number"),
   ("手续费", "commission", "finance", "number"),
   ("佣金", "commission", "finance", "number"),
   ("费用", "fee", "finance", "number"),
   ("总费用", "total_fee", "finance", "number"),
   ("费用金额", "fee_amount", "finance", "number"),
   ("管理费", "admin_fee", "finance", "number"),
   ("费用率", "expense_ratio", "finance", "number"),
   ("赔付率", "loss_ratio", "finance", "number"),
   ("综合成本率", "combined_ratio", "finance", "number"),
   ("变动成本率", "variable_cost_ratio", "finance", "number"),
   ("佣金率", "commission_rate", "finance", "number"),
   ("折扣率", "discount_rate", "finance", "number"),
   ("费率", "rate", "finance", "number"),
   ("NCD系数", "ncd_factor", "finance", "number"),
   ("自主系数", "autonomous_factor", "finance", "number"),
   ("渠道系数", "channel_factor", "finance", "number"),
   ("折扣", "discount", "finance", "number"),
   ("优惠金额", "discount_amount", "finance", "number"),
   ("机构", "organization", "organization", "string"),
   ("三级机构", "level_3_organization", "organization", "string"),
   ("四级机构", "level_4_organization", "organization", "string"),
   ("五级机构", "level_5_organization", "organization", "string"),
   ("支公司", "branch", "organization", "string"),
   ("分公司", "division", "organization", "string"),
   ("中心支公司", "central_branch", "organization", "string"),
   ("营业部", "sales_office", "organization", "string"),
   ("业务员", "agent", "organization", "string"),
   ("代理人", "agent", "organization", "string"),
   ("经纪人", "broker", "organization", "string"),
   ("渠道", "channel", "organization", "string"),
   ("销售渠道", "sales_channel", "organization", "string"),
   ("终端来源", "terminal_source", "organization", "string"),
   ("车牌号", "license_plate", "vehicle", "string"),
   ("车牌号码", "license_plate", "vehicle", "string"),
   ("车架号", "vin", "vehicle", "string"),
   ("发动机号", "engine_number", "vehicle", "string"),
   ("车型", "vehicle_model", "vehicle", "string"),
   ("厂牌型号", "make_model", "vehicle", "string"),
   ("品牌", "brand", "vehicle", "string"),
   ("车辆种类", "vehicle_type", "vehicle", "string"),
   ("使用性质", "use_nature", "vehicle", "string"),
   ("新旧车", "vehicle_age_category", "vehicle", "string"),
   ("车龄", "vehicle_age", "vehicle", "number"),
   ("座位数", "seat_count", "vehicle", "number"),
   ("吨位", "tonnage", "vehicle", "number"),
   ("排量", "displacement", "vehicle", "number"),
   ("功率", "power", "vehicle", "number"),
   ("整备质量", "curb_weight", "vehicle", "number"),
   ("购置价", "purchase_price", "vehicle", "number"),
   ("新车购置价", "new_vehicle_price", "vehicle", "number"),
   ("险种", "coverage_type", "product", "string"),
   ("险别", "coverage", "product", "string"),
   ("险类", "insurance_class", "product", "string"),
   ("产品", "product", "product", "string"),
   ("产品名称", "product_name", "product", "string"),
   ("保额", "coverage_amount", "product", "number"),
   ("保险金额", "insured_amount", "product", "number"),
   ("限额", "limit", "product", "number"),
   ("投保人", "policyholder", "customer", "string"),
   ("被保险人", "insured", "customer", "string"),
   ("客户名称", "customer_name", "customer", "string"),
   ("客户类型", "customer_type", "customer", "string"),
   ("证件号码", "id_number", "customer", "string"),
   ("证件类型", "id_type", "customer", "string"),
   ("联系电话", "phone", "customer", "string"),
   ("地址", "address", "customer", "string"),
   ("保险起期", "policy_start_date", "time", "datetime"),
   ("保险止期", "policy_end_date", "time", "datetime"),
   ("生效日期", "effective_date", "time", "datetime"),
   ("到期日期", "expiration_date", "time", "datetime"),
   ("确认时间", "confirmation_time", "time", "datetime"),
   ("投保确认时间", "application_confirmation_time", "time", "datetime"),
   ("签单时间", "issuance_time", "time", "datetime"),
   ("批改时间", "endorsement_time", "time", "datetime"),
   ("退保时间", "cancellation_time", "time", "datetime"),
   ("出险时间", "claim_time", "time", "datetime"),
   ("报案时间", "report_time", "time", "datetime"),
   ("刷新时间", "refresh_time", "time", "datetime"),
   ("是否续保", "is_renewal", "flag", "boolean"),
   ("是否新能源", "is_new_energy", "flag", "boolean"),
   ("是否过户车", "is_transferred", "flag", "boolean"),
   ("是否网约车", "is_ride_hailing", "flag", "boolean"),
   ("是否营业", "is_commercial", "flag", "boolean"),
   ("续保标识", "renewal_flag", "flag", "boolean"),
   ("转保标识", "conversion_flag", "flag", "boolean"),
   ("保单状态", "policy_status", "general", "string"),
   ("业务状态", "business_status", "general", "string"),
   ("承保状态", "underwriting_status", "general", "string"),
   ("理赔状态", "claim_status", "general", "string"),
   ("评分", "score", "general", "number"),
   ("风险评分", "risk_score", "general", "number"),
   ("等级", "level", "general", "string"),
   ("风险等级", "risk_level", "general", "string")]

def exactLookup (fieldName : String) : Option (String × String × String) :=
  (exactMappings.lookup fieldName)

/-- A pattern trigger: the decidable semantics of the regular expressions used
by `_init_keyword_patterns` under `re.search` (they only combine literal
alternatives, optional literal suffixes, character classes over literals, and
the anchors ^ and $). -/
inductive Trig where
  | sub (p : String)
  | subAny (ps : List String)
  | suf (p : String)
  | sufAny (ps : List String)
  | pre (p : String)
deriving DecidableEq

def evalTrig : Trig → String → Bool
  | .sub p, s => occursIn p s
  | .subAny ps, s => ps.any (fun p => occursIn p s)
  | .suf p, s => endsW p s
  | .sufAny ps, s => ps.any (fun p => endsW p s)
  | .pre p, s => startsW p s

structure PatRule where
  trig : Trig
  prio : Nat
  group : String
  kind : String
  token : Option String
deriving DecidableEq

/-- Embeds `_init_keyword_patterns` in declaration order (before the sort). -/
def declaredPatterns : List PatRule :=
  [⟨.suf "起期", 90, "time", "datetime", some "start_date"⟩,
   ⟨.suf "止期", 90, "time", "datetime", some "end_date"⟩,
   ⟨.sub "生效日", 90, "time", "datetime", some "effective_date"⟩,
   ⟨.sub "到期日", 90, "time", "datetime", some "expiration_date"⟩,
   ⟨.sub "确认时间", 85, "time", "datetime", some "confirmation_time"⟩,
   ⟨.subAny ["投保时间", "签单时间", "批改时间", "退保时间", "报案时间", "出险时间"], 85,
      "time", "datetime", none⟩,
   ⟨.suf "时间", 80, "time", "datetime", some "time"⟩,
   ⟨.suf "日期", 80, "time", "datetime", some "date"⟩,
   ⟨.suf "保费", 85, "finance", "number", some "premium"⟩,
   ⟨.subAny ["签单保费", "商业险保费", "交强险保费", "批改保费", "退保保费", "实收保费"], 85,
      "finance", "number", none⟩,
   ⟨.suf "赔款", 85, "finance", "number", some "claim_amount"⟩,
   ⟨.subAny ["总赔款", "案均赔款", "已决赔款", "未决赔款"], 85, "finance", "number", none⟩,
   ⟨.subAny ["出险次数", "索赔次数"], 85, "finance", "number", some "claim_count"⟩,
   ⟨.subAny ["出险频度", "索赔频度"], 85, "finance", "number", some "claim_frequency"⟩,
   ⟨.subAny ["手续费", "佣金"], 80, "finance", "number", some "commission"⟩,
   ⟨.sufAny ["费用", "费用金额"], 80, "finance", "number", some "fee"⟩,
   ⟨.subAny ["管理费", "服务费"], 80, "finance", "number", none⟩,
   ⟨.subAny ["费用率", "赔付率", "综合成本率", "变动成本率"], 80, "finance", "number", none⟩,
   ⟨.subAny ["比率", "比例"], 75, "finance", "number", some "ratio"⟩,
   ⟨.subAny ["NCD系数", "自主系数", "渠道系数"], 80, "finance", "number", none⟩,
   ⟨.sub "折扣", 75, "finance", "number", some "discount"⟩,
   ⟨.suf "金额", 70, "finance", "number", some "amount"⟩,
   ⟨.sub "价格", 70, "finance", "number", some "price"⟩,
   ⟨.subAny ["三级机构", "四级机构", "五级机构"], 75, "organization", "string", none⟩,
   ⟨.subAny ["支公司", "分公司"], 75, "organization", "string", none⟩,
   ⟨.subAny ["营业部", "中心"], 70, "organization", "string", none⟩,
   ⟨.subAny ["业务员", "代理", "经纪"], 75, "organization", "string", none⟩,
   ⟨.sub "渠道", 70, "organization", "string", some "channel"⟩,
   ⟨.sub "车牌", 90, "vehicle", "string", some "license_plate"⟩,
   ⟨.subAny ["车架号", "VIN"], 90, "vehicle", "string", some "vin"⟩,
   ⟨.sub "发动机号", 85, "vehicle", "string", some "engine_number"⟩,
   ⟨.subAny ["车型", "厂牌型号"], 75, "vehicle", "string", some "vehicle_model"⟩,
   ⟨.sub "品牌", 70, "vehicle", "string", some "brand"⟩,
   ⟨.sub "新旧车", 75, "vehicle", "string", some "vehicle_age_category"⟩,
   ⟨.sub "车龄", 75, "vehicle", "number", some "vehicle_age"⟩,
   ⟨.subAny ["座位数", "吨位", "排量", "功率"], 70, "vehicle", "number", none⟩,
   ⟨.subAny ["险种", "险别", "险类"], 80, "product", "string", none⟩,
   ⟨.sub "产品", 75, "product", "string", some "product"⟩,
   ⟨.subAny ["保额", "保险金额", "限额"], 75, "product", "number", none⟩,
   ⟨.subAny ["投保人", "被保险人"], 80, "customer", "string", none⟩,
   ⟨.sub "客户", 75, "customer", "string", none⟩,
   ⟨.subAny ["证件号码", "证件类型"], 75, "customer", "string", none⟩,
   ⟨.subAny ["联系电话", "电话"], 70, "customer", "string", some "phone"⟩,
   ⟨.sub "地址", 70, "customer", "string", some "address"⟩,
   ⟨.pre "是否", 85, "flag", "boolean", none⟩,
   ⟨.sufAny ["标识", "标志"], 75, "flag", "boolean", some "flag"⟩,
   ⟨.subAny ["保单状态", "业务状态", "承保状态", "理赔状态"], 75, "general", "string", none⟩,
   ⟨.suf "状态", 65, "general", "string", some "status"⟩,
   ⟨.suf "评分", 70, "general", "number", some "score"⟩,
   ⟨.suf "等级", 70, "general", "string", some "level"⟩,
   ⟨.sufAny ["类型", "种类"], 60, "general", "string", some "type"⟩,
   ⟨.sufAny ["编号", "号"], 60, "general", "string", some "number"⟩,
   ⟨.suf "名称", 55, "general", "string", some "name"⟩]

/-- Patterns tagged with their declaration index, then stably sorted by
descending priority — the effect of the in-place sort by priority with
reverse true, which in Python is stable. -/
def sortedIdxPatterns : List (Nat × PatRule) :=
  sortKey (fun p => p.2.prio) declaredPatterns.enum

def sortedPatterns : List PatRule := sortedIdxPatterns.map Prod.snd

def patternFind (name : String) : Option PatRule :=
  sortedPatterns.find? (fun r => evalTrig r.trig name)

/-- Step 2 of `analyze_field`: first matching rule wins, else the
(general, string, no-token) defaults. -/
def patternClassify (name : String) : String × String × Option String :=
  match patternFind name with
  | some r => (r.group, r.kind, r.token)
  | none => ("general", "string", none)

/-- Embeds the `_translate_keywords` keyword dictionary in declaration (insertion) order. -/
def keywordMap : List (String × String) :=
  [("保单号", "policy_number"), ("批单号", "endorsement_number"), ("单号", "number"),
   ("编号", "code"),
   ("签单保费", "written_premium"), ("商业险保费", "commercial_premium"),
   ("交强险保费", "compulsory_premium"), ("保费", "premium"),
   ("赔款", "claim"), ("案均", "average"), ("总", "total"), ("已决", "paid"),
   ("未决", "outstanding"), ("出险", "claim"), ("索赔", "claim"),
   ("手续费", "commission"), ("佣金", "commission"), ("费用", "fee"), ("管理费", "admin_fee"),
   ("费用率", "expense_ratio"), ("赔付率", "loss_ratio"), ("成本率", "cost_ratio"),
   ("综合", "combined"), ("变动", "variable"), ("率", "ratio"), ("比率", "ratio"),
   ("比例", "ratio"),
   ("NCD系数", "ncd_factor"), ("系数", "factor"), ("折扣", "discount"), ("优惠", "discount"),
   ("三级机构", "level_3_org"), ("四级机构", "level_4_org"), ("五级机构", "level_5_org"),
   ("机构", "organization"), ("支公司", "branch"), ("分公司", "division"),
   ("营业部", "sales_office"), ("中心", "center"), ("业务员", "agent"), ("代理人", "agent"),
   ("代理", "agent"), ("经纪人", "broker"), ("经纪", "broker"), ("渠道", "channel"),
   ("销售", "sales"), ("终端", "terminal"), ("来源", "source"),
   ("车牌", "license_plate"), ("车架号", "vin"), ("发动机号", "engine_number"),
   ("车型", "vehicle_model"), ("厂牌", "make"), ("型号", "model"), ("品牌", "brand"),
   ("新旧车", "vehicle_age_category"), ("车龄", "vehicle_age"), ("座位数", "seat_count"),
   ("吨位", "tonnage"), ("排量", "displacement"), ("功率", "power"),
   ("整备质量", "curb_weight"), ("购置价", "purchase_price"), ("新车", "new_vehicle"),
   ("车辆", "vehicle"), ("车", "vehicle"),
   ("险种", "coverage_type"), ("险别", "coverage"), ("险类", "insurance_class"),
   ("商业险", "commercial"), ("交强险", "compulsory"), ("产品", "product"),
   ("保额", "coverage_amount"), ("保险金额", "insured_amount"), ("金额", "amount"),
   ("限额", "limit"),
   ("投保人", "policyholder"), ("被保险人", "insured"), ("客户", "customer"),
   ("证件号", "id_number"), ("证件", "id"), ("电话", "phone"), ("地址", "address"),
   ("保险起期", "policy_start_date"), ("保险止期", "policy_end_date"),
   ("起期", "start_date"), ("止期", "end_date"), ("生效日期", "effective_date"),
   ("到期日期", "expiration_date"), ("确认时间", "confirmation_time"),
   ("投保时间", "application_time"), ("签单时间", "issuance_time"),
   ("批改时间", "endorsement_time"), ("退保时间", "cancellation_time"),
   ("报案时间", "report_time"), ("刷新时间", "refresh_time"), ("时间", "time"),
   ("日期", "date"), ("投保", "application"), ("签单", "issuance"), ("批改", "endorsement"),
   ("退保", "cancellation"), ("报案", "report"), ("刷新", "refresh"), ("确认", "confirmation"),
   ("是否", "is"), ("续保", "renewal"), ("转保", "conversion"), ("新能源", "new_energy"),
   ("过户", "transferred"), ("网约车", "ride_hailing"), ("营业", "commercial"),
   ("标识", "flag"), ("标志", "flag"),
   ("状态", "status"), ("保单", "policy"), ("业务", "business"), ("承保", "underwriting"),
   ("理赔", "claim"),
   ("评分", "score"), ("等级", "level"), ("风险", "risk"), ("类型", "type"),
   ("种类", "category"), ("名称", "name"), ("次数", "count"), ("频度", "frequency"),
   ("数量", "quantity"), ("笔数", "count")]

/-- The scan loop of `_translate_keywords`: append the token of each phrase found
in the remaining text (skipping duplicate tokens) and delete the first
occurrence of the phrase. -/
def tkRun : List (String × String) → List String → String → List String
  | [], tokens, _ => tokens
  | kv :: rest, tokens, remaining =>
    if occursIn kv.1 remaining then
      tkRun rest (if tokens.contains kv.2 then tokens else tokens ++ [kv.2])
        (removeFirstStr kv.1 remaining)
    else tkRun rest tokens remaining

/-- Embeds `AIFieldMapper._translate_keywords`, parameterized over the dictionary. -/
def translateKW (km : List (String × String)) (name : String) : List String :=
  tkRun (sortLen km) [] name

/-! ### `_infer_type_from_samples` -/

def isSepChar (c : Char) : Bool := c = '-' || c = '/'

def consumeDigits : Nat → List Char → Option (List Char)
  | 0, cs => some cs
  | _ + 1, [] => none
  | n + 1, c :: cs => if c.isDigit then consumeDigits n cs else none

/-- Remainders after consuming one or two digits (the alternatives of `\d{1,2}`). -/
def afterOneTwo (cs : List Char) : List (List Char) :=
  match cs with
  | [] => []
  | c :: t =>
    if c.isDigit then
      match t with
      | d :: u => if d.isDigit then [t, u] else [t]
      | [] => [t]
    else []

/-- The pattern four digits, separator, 1-2 digits, separator, 1-2 digits
(Y-M-D with dash or slash separators) anchored at the start of `cs`. -/
def matchYMDAt (cs : List Char) : Bool :=
  match consumeDigits 4 cs with
  | none => false
  | some r1 =>
    match r1 with
    | s1 :: r2 =>
      isSepChar s1 &&
        (afterOneTwo r2).any (fun r3 =>
          match r3 with
          | s2 :: r4 => isSepChar s2 && (match r4 with | d :: _ => d.isDigit | [] => false)
          | [] => false)
    | [] => false

/-- The pattern 1-2 digits, separator, 1-2 digits, separator, four digits
(D-M-Y with dash or slash separators) anchored at the start of `cs`. -/
def matchDMYAt (cs : List Char) : Bool :=
  (afterOneTwo cs).any fun r1 =>
    match r1 with
    | s1 :: r2 =>
      isSepChar s1 &&
        (afterOneTwo r2).any (fun r3 =>
          match r3 with
          | s2 :: r4 => isSepChar s2 && (consumeDigits 4 r4).isSome
          | [] => false)
    | [] => false

/-- `re.search`: try the anchored match at every position. -/
def searchL (p : List Char → Bool) : List Char → Bool
  | [] => p []
  | c :: t => p (c :: t) || searchL p t

/-- The three datetime patterns of `_infer_type_from_samples` under `re.search`. -/
def dateLike (s : String) : Bool :=
  searchL matchYMDAt s.toList || searchL matchDMYAt s.toList ||
    searchL (fun r => (consumeDigits 8 r).isSome) s.toList

def boolIndicators : List String :=
  ["是", "否", "y", "n", "yes", "no", "true", "false", "0", "1", "t", "f"]

/-- The boolean branch of `_infer_type_from_samples`. -/
def boolLike (samples : List String) : Bool :=
  distinctCount (samples.map strip) ≤ 3 &&
    (samples.map (fun v => lowerAscii (strip v))).all (fun v => boolIndicators.contains v)

/-- Python `float(...)` success on a cleaned sample (sign, digits with an
optional point, optional exponent, or inf/nan spellings; the rarely used
underscore digit separators of Python numeric strings are not modelled). -/
def dropWhileDigits : List Char → Nat × List Char
  | [] => (0, [])
  | c :: t =>
    if c.isDigit then ((dropWhileDigits t).1 + 1, (dropWhileDigits t).2) else (0, c :: t)

def expPart (cs : List Char) : Bool :=
  match cs with
  | [] => true
  | e :: t =>
    (e = 'e' || e = 'E') &&
      (let t2 := match t with | s :: u => if s = '+' || s = '-' then u else s :: u | [] => []
       let r := dropWhileDigits t2
       r.1 ≥ 1 && r.2 = [])

def mantissaThen (cs : List Char) : Bool :=
  let r1 := dropWhileDigits cs
  match r1.2 with
  | '.' :: rest =>
    let r2 := dropWhileDigits rest
    (r1.1 + r2.1 ≥ 1) && expPart r2.2
  | _ => r1.1 ≥ 1 && expPart r1.2

def pyFloatParsable (s : String) : Bool :=
  let t := lowerAscii (strip s)
  if ["inf", "infinity", "nan", "+inf", "-inf", "+infinity", "-infinity", "+nan", "-nan"].contains t
  then true
  else
    let cs := (strip s).toList
    let cs2 := match cs with | c :: r => if c = '+' || c = '-' then r else c :: r | [] => []
    mantissaThen cs2

/-- Embeds the per-sample numeric test: strip, remove both comma variants, then float parse. -/
def sampleIsNumeric (v : String) : Bool :=
  pyFloatParsable ⟨(strip v).toList.filter (fun c => c ≠ ',' && c ≠ '，')⟩

def numericCount (samples : List String) : Nat :=
  ((samples.take 20).filter sampleIsNumeric).length

/-- `AIFieldMapper._infer_type_from_samples` on the non-missing samples
(already stringified; the notna filtering is reflected by the caller passing
only non-missing values). -/
def inferTypeFromSamples (samples : List String) : String :=
  match samples with
  | [] => "string"
  | v :: _ =>
    if dateLike v then "datetime"
    else if boolLike samples then "boolean"
    else if 5 * numericCount samples > 4 * (samples.take 20).length then "number"
    else "string"

/-! ### `analyze_field` -/

def numberKeywords : List String :=
  ["金额", "保费", "费用", "赔款", "价格", "数量", "次数", "频度",
   "评分", "率", "系数", "折扣", "吨位", "座位", "排量", "功率",
   "车龄", "笔数", "比例"]

def collapseU : List Char → List Char
  | [] => []
  | [c] => [c]
  | c :: d :: t => if c = '_' && d = '_' then collapseU (d :: t) else c :: collapseU (d :: t)

def trimU (cs : List Char) : List Char :=
  ((cs.dropWhile (fun c => c = '_')).reverse.dropWhile (fun c => c = '_')).reverse

/-- Step 5 of `analyze_field`: force snake_case, collapse and strip
underscores, and bound the length at 50 (keeping the first three tokens). -/
def snakeClean (s : String) : String :=
  let s1 := (lowerAscii s).toList.map (fun c => if isLowerAZ c || c.isDigit || c = '_' then c else '_')
  let en : String := ⟨trimU (collapseU s1)⟩
  if en.length > 50 then
    let parts := splitUnd en
    if parts.length > 3 then joinWith "_" (parts.take 3)
    else ⟨en.toList.take 50⟩
  else en

structure FieldSuggestion where
  enName : String
  group : String
  dtype : String
  description : String
deriving DecidableEq

/-- Step 4 of `analyze_field` when no usable pattern token exists: join the
translated tokens, or fall back to `field_<hash(name) % 10000>`. -/
def tokensName (hashF : String → Nat) (fieldName : String) : String :=
  let tokens := translateKW keywordMap fieldName
  if tokens ≠ [] then joinWith "_" tokens
  else "field_" ++ toString (hashF fieldName % 10000)

/-- Embeds `AIFieldMapper.analyze_field`, with Python's process-randomized string
hash abstracted as `hashF`. -/
def analyzeFieldWith (hashF : String → Nat) (fieldName : String)
    (sampleValues : Option (List String)) : FieldSuggestion :=
  match exactLookup fieldName with
  | some t =>
    { enName := t.1, group := t.2.1, dtype := t.2.2,
      description := fieldName ++ " (exact match)" }
  | none =>
    let pc := patternClassify fieldName
    let dtype :=
      match sampleValues with
      | some sv =>
        if sv ≠ [] && pc.2.1 ≠ "boolean" then
          let inferred := inferTypeFromSamples sv
          if inferred = "datetime" || inferred = "boolean" then inferred
          else if inferred = "number" && pc.2.1 = "string" then
            (if numberKeywords.any (fun kw => occursIn kw fieldName) then "number" else pc.2.1)
          else pc.2.1
        else pc.2.1
      | none => pc.2.1
    let enRaw :=
      match pc.2.2 with
      | some t => if t ≠ "" && !(endsW "_" t) then t else tokensName hashF fieldName
      | none => tokensName hashF fieldName
    { enName := snakeClean enRaw, group := pc.1, dtype := dtype,
      description := fieldName ++ " (auto-generated)" }

/-! ## ExcelAnalyzer (src/analyzer.py) -/

structure StoreEntry where
  enName : String
  group : String
  dtype : String
  description : String
deriving DecidableEq

/-- The merged Mapping Store `combined_mappings` (each entry follows the
field_mappings JSON schema: en_name, group, dtype, description). -/
abbrev Store := List (String × StoreEntry)

def lookupStore (store : Store) (cn : String) : Option StoreEntry := store.lookup cn

/-- Embeds `ExcelAnalyzer.derive_group`. -/
def deriveGroup (col : String) : String :=
  if occursIn "时间" col || occursIn "日期" col then "time"
  else if occursIn "机构" col then "organization"
  else if occursIn "保费" col || occursIn "费用" col || occursIn "NCD" col then "finance"
  else if occursIn "险" col then "product"
  else if occursIn "是否" col then "flag"
  else if occursIn "4S" col || occursIn "集团" col then "partner"
  else if occursIn "车牌" col then "vehicle"
  else if occursIn "车" col then "vehicle"
  else "general"

/-- Embeds `ExcelAnalyzer.dtype_to_role` (on the pandas dtype string of the column). -/
def dtypeToRole (d : String) : String :=
  if startsW "float" d || startsW "int" d then "measure" else "dimension"

/-- Embeds `ExcelAnalyzer.dtype_to_kind`. -/
def dtypeToKind (d : String) : String :=
  if startsW "float" d || startsW "int" d then "number"
  else if occursIn "datetime" d then "datetime"
  else "string"

/-- Embeds `ExcelAnalyzer.default_aggregation`. -/
def defaultAggregation (role : String) : String := if role = "measure" then "sum" else "none"

/-- The phrase loop of `generate_alias_from_cn`: append the token when the
phrase occurs and the token is not yet collected, deleting every occurrence of
the phrase from the working text. -/
def aliasLoop : List (String × String) → List String → String → List String
  | [], tokens, _ => tokens
  | kv :: rest, tokens, text =>
    if occursIn kv.1 text && !(tokens.contains kv.2) then
      aliasLoop rest (tokens ++ [kv.2]) (removeAllStr kv.1 text)
    else aliasLoop rest tokens text

/-- Embeds `ExcelAnalyzer.generate_alias_from_cn`, parameterized over the store and
the phrase-to-token dictionary captured at construction. -/
def generateAliasFromCn (store : Store) (phrases : List (String × String)) (col : String) :
    String × Bool :=
  match lookupStore store col with
  | some e => (e.enName, true)
  | none =>
    let tokens := aliasLoop (sortLen phrases) [] col
    if tokens ≠ [] then (joinWith "_" tokens, true)
    else ("unknown_field", false)

structure NumStats where
  minV : ℚ
  maxV : ℚ
  meanV : ℚ
  sumV : ℚ
deriving DecidableEq

/-- The per-column summary fields `build_field_mapping` reads. -/
structure ColSummary where
  dtypeStr : String
  nullPct : ℚ
  stats : Option NumStats
deriving DecidableEq

structure FieldRecord where
  fieldName : String
  cnName : String
  sourceColumn : String
  group : String
  dtype : String
  role : String
  aggregation : String
  description : String
  notes : String
  isMapped : Bool
deriving DecidableEq

def ratStr (q : ℚ) : String := toString q.num ++ "/" ++ toString q.den

/-- Body of one `build_field_mapping` iteration after the store/alias names are
fixed: role and aggregation overrides, description and notes. -/
def coreWithNames (fieldEn group kind desc : String) (found : Bool) (col : String)
    (s : ColSummary) : FieldRecord :=
  let role0 := dtypeToRole s.dtypeStr
  let role1 := if containsAnyKw ["评分", "等级", "分数", "级别"] col then "dimension" else role0
  let role := if occursIn "系数" col then "dimension" else role1
  let agg0 := defaultAggregation role
  let agg :=
    if role = "measure" then
      if containsAnyKw ["比例", "折扣", "系数", "NCD", "优待"] col then "avg"
      else if containsAnyKw ["保费", "金额", "费用", "价格", "赔款", "手续费", "税"] col then "sum"
      else agg0
    else agg0
  let notesL :=
    (if s.nullPct > 0 then ["空值率约 " ++ ratStr s.nullPct ++ "%"] else []) ++
    (match s.stats with
     | some ns => if kind = "number" && ns.minV < 0 then ["存在负数，可能为冲销/退款/批改"] else []
     | none => [])
  { fieldName := fieldEn, cnName := col, sourceColumn := col, group := group, dtype := kind,
    role := role, aggregation := agg, description := desc,
    notes := joinWith "；" notesL, isMapped := found }

def autoDesc (kind col : String) : String :=
  if kind = "number" then "数值字段（" ++ col ++ "），可用于按时间/机构等维度进行汇总分析。"
  else if kind = "datetime" then "时间字段（" ++ col ++ "），可用于时间序列统计与趋势分析。"
  else "分类/文本字段（" ++ col ++ "），可用于分组与维度统计。"

/-- One `build_field_mapping` iteration before the uniqueness rename: the store
branch keeps the stored en_name, group, dtype and description; otherwise the
alias generator and the dtype-derived kind/description are used. -/
def buildCore (store : Store) (phrases : List (String × String)) (col : String)
    (s : ColSummary) : FieldRecord :=
  match lookupStore store col with
  | some fm => coreWithNames fm.enName fm.group fm.dtype fm.description true col s
  | none =>
    let fg := generateAliasFromCn store phrases col
    coreWithNames fg.1 (deriveGroup col) (dtypeToKind s.dtypeStr)
      (autoDesc (dtypeToKind s.dtypeStr) col) fg.2 col s

/-- The `used_names` counter update of `build_field_mapping` (lines 343-348):
first occurrence keeps the name and registers count 0, later occurrences bump
the count and append it as a suffix. -/
def resolveStep (used : List (String × Nat)) (nm : String) : String × List (String × Nat) :=
  match used.lookup nm with
  | some c => (nm ++ "_" ++ toString (c + 1),
               used.map (fun kv => if kv.1 = nm then (kv.1, kv.2 + 1) else kv))
  | none => (nm, used ++ [(nm, 0)])

/-- The uniqueness resolver applied to a whole candidate list. -/
def resolveNames (used : List (String × Nat)) : List String → List String
  | [] => []
  | nm :: rest =>
    let rs := resolveStep used nm
    rs.1 :: resolveNames rs.2 rest

/-- Embeds `ExcelAnalyzer.build_field_mapping`: the batch loop producing the mapping
list and the unknown-field list. -/
def buildLoop (store : Store) (phrases : List (String × String))
    (used : List (String × Nat)) : List (String × ColSummary) → List FieldRecord × List String
  | [] => ([], [])
  | (col, s) :: rest =>
    let core := buildCore store phrases col s
    let rs := resolveStep used core.fieldName
    let tail := buildLoop store phrases rs.2 rest
    ({ core with fieldName := rs.1 } :: tail.1,
     (if core.isMapped then [] else [col]) ++ tail.2)

def buildFieldMapping (store : Store) (phrases : List (String × String))
    (batch : List (String × ColSummary)) : List FieldRecord × List String :=
  buildLoop store phrases [] batch

/-- Specification resolver, written from the spec's words: the output preserves
batch order; the first occurrence of a candidate is kept unchanged; the k-th
later occurrence receives the suffix made of an underscore and k, strictly
increasing from 1 in first-seen order (`hist` is the list of candidates already
processed). -/
def specResolve (hist : List String) : List String → List String
  | [] => []
  | nm :: rest =>
    (if hist.count nm = 0 then nm else nm ++ "_" ++ toString (hist.count nm)) ::
      specResolve (hist ++ [nm]) rest

/-! ## Helper lemmas -/

theorem find_first_spec {α : Type} (p : α → Bool) (l : List α) :
    (∃ pre r suf, l = pre ++ r :: suf ∧ p r = true ∧ (∀ a ∈ pre, p a = false) ∧
      l.find? p = some r) ∨
    ((∀ a ∈ l, p a = false) ∧ l.find? p = none) := by
  induction l with
  | nil => right; simp
  | cons x xs ih =>
    cases hx : p x with
    | true =>
      left
      exact ⟨[], x, xs, rfl, hx, by simp, by simp [List.find?_cons_of_pos, hx]⟩
    | false =>
      rcases ih with ⟨pre, r, suf, hl, hr, hpre, hfind⟩ | ⟨hall, hfind⟩
      · left
        refine ⟨x :: pre, r, suf, by rw [hl, List.cons_append], hr, ?_, ?_⟩
        · intro a ha
          rcases List.mem_cons.mp ha with ha | ha
          · subst ha; exact hx
          · exact hpre a ha
        · rw [List.find?_cons_of_neg _ (by simp [hx]), hfind]
      · right
        refine ⟨?_, by rw [List.find?_cons_of_neg _ (by simp [hx]), hfind]⟩
        intro a ha
        rcases List.mem_cons.mp ha with ha | ha
        · subst ha; exact hx
        · exact hall a ha

theorem mem_tkRun (l : List (String × String)) :
    ∀ (tokens : List String) (rem t : String), t ∈ tokens → t ∈ tkRun l tokens rem := by
  induction l with
  | nil => intro tokens rem t ht; simpa [tkRun] using ht
  | cons kv rest ih =>
    intro tokens rem t ht
    simp only [tkRun]
    split
    · apply ih
      split
      · exact ht
      · exact List.mem_append_left _ ht
    · exact ih tokens rem t ht

theorem aliasLoop_of_no_match (text : String) :
    ∀ (l : List (String × String)) (tokens : List String),
    (∀ kv ∈ l, occursIn kv.1 text = false) → aliasLoop l tokens text = tokens := by
  intro l
  induction l with
  | nil => intro tokens _; rfl
  | cons kv rest ih =>
    intro tokens hno
    have hkv : occursIn kv.1 text = false := hno kv (List.mem_cons_self kv rest)
    simp only [aliasLoop, hkv]
    exact ih tokens (fun a ha => hno a (List.mem_cons_of_mem kv ha))

theorem lookup_append_nat (l₁ l₂ : List (String × Nat)) (a : String) :
    (l₁ ++ l₂).lookup a =
      (match l₁.lookup a with
       | some c => some c
       | none => l₂.lookup a) := by
  induction l₁ with
  | nil => simp [List.lookup]
  | cons kv t ih =>
    simp only [List.cons_append, List.lookup]
    cases a == kv.1 <;> simp [ih]

theorem lookup_map_bump (l : List (String × Nat)) (nm x : String) :
    (l.map (fun kv => if kv.1 = nm then (kv.1, kv.2 + 1) else kv)).lookup x =
      (match l.lookup x with
       | some c => some (if x = nm then c + 1 else c)
       | none => none) := by
  induction l with
  | nil => simp [List.lookup]
  | cons kv t ih =>
    obtain ⟨k, v⟩ := kv
    by_cases hk : k = nm
    · have hhead : ((k, v) :: t).map (fun kv => if kv.1 = nm then (kv.1, kv.2 + 1) else kv) =
          (k, v + 1) :: t.map (fun kv => if kv.1 = nm then (kv.1, kv.2 + 1) else kv) := by
        simp [hk]
      rw [hhead]
      cases hax : x == k
      · simpa [List.lookup, hax] using ih
      · have hx : x = k := by simpa using hax
        simp [List.lookup, hax, hx, hk]
    · have hhead : ((k, v) :: t).map (fun kv => if kv.1 = nm then (kv.1, kv.2 + 1) else kv) =
          (k, v) :: t.map (fun kv => if kv.1 = nm then (kv.1, kv.2 + 1) else kv) := by
        simp [hk]
      rw [hhead]
      cases hax : x == k
      · simpa [List.lookup, hax] using ih
      · have hx : x = k := by simpa using hax
        simp [List.lookup, hax, hx, hk]

/-- Relation between the live `used_names` dictionary and the multiset of
candidate names already processed. -/
def UsedInv (used : List (String × Nat)) (hist : List String) : Prop :=
  ∀ x : String,
    used.lookup x = if hist.count x = 0 then none else some (hist.count x - 1)

theorem usedInv_nil : UsedInv [] [] := by
  intro x; simp [List.lookup]

theorem count_append_singleton (hist : List String) (nm x : String) :
    (hist ++ [nm]).count x = hist.count x + (if x = nm then 1 else 0) := by
  by_cases h : x = nm
  · subst h; simp [List.count_append]
  · simp [List.count_append, List.count_singleton', h,
      (by simpa using Ne.symm h : (nm == x) = false)]

theorem resolveStep_spec (used : List (String × Nat)) (hist : List String) (nm : String)
    (h : UsedInv used hist) :
    (resolveStep used nm).1 =
      (if hist.count nm = 0 then nm else nm ++ "_" ++ toString (hist.count nm)) ∧
    UsedInv (resolveStep used nm).2 (hist ++ [nm]) := by
  have hnm := h nm
  by_cases h0 : hist.count nm = 0
  · rw [if_pos h0] at hnm
    constructor
    · simp [resolveStep, hnm, if_pos h0]
    · intro x
      have hx := h x
      simp only [resolveStep, hnm]
      rw [lookup_append_nat, hx, count_append_singleton]
      by_cases hxn : x = nm
      · subst hxn
        simp [h0, List.lookup]
      · simp only [if_neg hxn, Nat.add_zero]
        by_cases hc : hist.count x = 0
        · simp [hc, List.lookup, (by simpa using hxn : (x == nm) = false)]
        · simp [hc]
  · rw [if_neg h0] at hnm
    have hsucc : hist.count nm - 1 + 1 = hist.count nm := Nat.succ_pred_eq_of_pos
      (Nat.pos_of_ne_zero h0)
    constructor
    · simp [resolveStep, hnm, if_neg h0, hsucc]
    · intro x
      have hx := h x
      simp only [resolveStep, hnm]
      rw [lookup_map_bump, hx, count_append_singleton]
      by_cases hxn : x = nm
      · subst hxn
        simp [h0, hsucc]
      · simp only [if_neg hxn, Nat.add_zero]
        by_cases hc : hist.count x = 0
        · simp [hc]
        · simp [hc, if_neg hxn]

theorem resolveNames_eq_spec :
    ∀ (names hist : List String) (used : List (String × Nat)),
    UsedInv used hist → resolveNames used names = specResolve hist names := by
  intro names
  induction names with
  | nil => intro hist used _; rfl
  | cons nm rest ih =>
    intro hist used h
    obtain ⟨h1, h2⟩ := resolveStep_spec used hist nm h
    simp only [resolveNames, specResolve]
    rw [h1, ih (hist ++ [nm]) _ h2]

theorem buildLoop_names (store : Store) (phr : List (String × String)) :
    ∀ (batch : List (String × ColSummary)) (used : List (String × Nat)),
    (buildLoop store phr used batch).1.map (fun e => e.fieldName) =
      resolveNames used (batch.map (fun b => (buildCore store phr b.1 b.2).fieldName)) := by
  intro batch
  induction batch with
  | nil => intro used; rfl
  | cons b rest ih =>
    intro used
    obtain ⟨col, s⟩ := b
    simp only [buildLoop, resolveNames, List.map_cons]
    rw [ih]

theorem buildLoop_map_inv {γ : Type} (f : FieldRecord → γ)
    (hf : ∀ (r : FieldRecord) (nm : String), f { r with fieldName := nm } = f r)
    (store : Store) (phr : List (String × String)) :
    ∀ (batch : List (String × ColSummary)) (used : List (String × Nat)),
    (buildLoop store phr used batch).1.map f =
      batch.map (fun b => f (buildCore store phr b.1 b.2)) := by
  intro batch
  induction batch with
  | nil => intro used; rfl
  | cons b rest ih =>
    intro used
    obtain ⟨col, s⟩ := b
    simp only [buildLoop, List.map_cons]
    rw [hf, ih]

theorem buildLoop_unknown_mem (store : Store) (phr : List (String × String)) :
    ∀ (batch : List (String × ColSummary)) (used : List (String × Nat))
      (col : String) (s : ColSummary),
    (col, s) ∈ batch → (buildCore store phr col s).isMapped = false →
    col ∈ (buildLoop store phr used batch).2 := by
  intro batch
  induction batch with
  | nil => intro used col s h _; exact absurd h (List.not_mem_nil _)
  | cons b rest ih =>
    intro used col s hmem hun
    obtain ⟨bc, bs⟩ := b
    simp only [buildLoop]
    rcases List.mem_cons.mp hmem with hb | hb
    · have h1 : col = bc := congrArg Prod.fst hb
      have h2 : s = bs := congrArg Prod.snd hb
      subst h1; subst h2
      rw [hun]
      exact List.mem_append_left _ (List.mem_singleton_self col)
    · exact List.mem_append_right _ (ih _ col s hb hun)

/-! ## Claim C1 -/

/-- Claim C1 (amended): for every mapping record, `validate_mapping` returns an
overall score of at most 100, and a record whose issues contain a
critical-tagged issue never receives the tier excellent (it is capped at good).
The claimed lower bound 0 does not hold: deductions applied after the semantic
`min` step can drive the score below 0 (see the counterexample). -/
theorem c1_validator_bounds (m : RawMapping) :
    (validateMapping m).overallScore ≤ 100 ∧
      ((validateMapping m).issues.any isCriticalIssue = true →
        (validateMapping m).qualityLevel ≠ "excellent") := by
  constructor
  · unfold validateMapping
    dsimp only
    repeat' split
    all_goals omega
  · intro h
    have hq : (validateMapping m).qualityLevel =
        capLevel ((validateMapping m).issues.any isCriticalIssue)
          (tierOf (validateMapping m).overallScore) := rfl
    rw [hq, h]
    unfold capLevel
    split
    · decide
    · rename_i hcond
      intro he
      exact hcond ⟨rfl, he⟩

def c1CounterInput : RawMapping :=
  { cnName := "保费系数评分", fieldName := "field_1", group := "finance",
    dtype := "number", role := "measure", aggregation := "sum" }

/-- Claim C1 counterexample: this record loses 40 (placeholder name), 15
(group), is capped at 45 by the semantic score 65, then loses 20 (dtype), 25
(measure+sum on a coefficient) and 15 (sum on a coefficient), ending at -15:
the claimed interval [0,100] is violated. -/
theorem c1_counterexample :
    (validateMapping c1CounterInput).overallScore = -15 ∧
      (validateMapping c1CounterInput).overallScore < 0 := by decide

def c1WitnessInput : RawMapping :=
  { cnName := "评分", fieldName := "field_9", group := "general",
    dtype := "string", role := "dimension", aggregation := "none" }

theorem c1_witness :
    (validateMapping c1WitnessInput).qualityLevel ≠ "excellent" ∧
      (validateMapping c1WitnessInput).overallScore ≤ 100 :=
  ⟨(c1_validator_bounds c1WitnessInput).2 (by decide),
   (c1_validator_bounds c1WitnessInput).1⟩

/-! ## Claim C4 -/

/-- Claim C4 (amended): for a non-empty list of non-missing samples, the
sample-based refiner returns datetime exactly when the FIRST sample matches a
date-like numeric pattern (and that check does come first, winning over the
boolean and number checks); the claim's any-sample trigger does not hold (see
the counterexample). -/
theorem c4_datetime_first_sample (v : String) (rest : List String) :
    inferTypeFromSamples (v :: rest) = "datetime" ↔ dateLike v = true := by
  simp only [inferTypeFromSamples]
  cases hdl : dateLike v with
  | true => simp
  | false =>
    rw [if_neg (by simp)]
    constructor
    · intro h
      exfalso
      revert h
      split_ifs <;> intro h <;> exact absurd h (by decide)
    · intro h
      cases h

/-- Claim C4 counterexample: the second sample matches the Y-M-D date pattern,
yet the refiner returns string because only the first sample is inspected. -/
theorem c4_counterexample :
    dateLike "2024-01-01" = true ∧
      inferTypeFromSamples ["abc", "2024-01-01"] = "string" ∧
      inferTypeFromSamples ["abc", "2024-01-01"] ≠ "datetime" := by decide

/-! ## Claim C10 -/

/-- Claim C10: every candidate canonical name whose first character is not an
ASCII lowercase letter fails the validator's naming check (the anchored
lowercase-first pattern), the naming issue is recorded, and a naming deduction
(20 or 40 points) is applied, leaving the score at most 80. -/
theorem c10_leading_char (m : RawMapping) (c : Char) (rest : List Char)
    (h1 : m.fieldName.toList = c :: rest) (h2 : isLowerAZ c = false) :
    (checkNamingConvention m.fieldName).1 = false ∧
    ("命名规范: " ++ (checkNamingConvention m.fieldName).2) ∈ (validateMapping m).issues ∧
    (validateMapping m).overallScore ≤ 80 := by
  have hne : ¬(m.fieldName = "") := by
    intro h
    rw [h] at h1
    simp at h1
  have hnm : namingMatch m.fieldName = false := by
    unfold namingMatch
    rw [h1]
    simp [h2]
  have hnc : checkNamingConvention m.fieldName =
      (false, "不符合snake_case命名规范（应为小写字母、数字和下划线）") := by
    unfold checkNamingConvention
    rw [if_neg hne, hnm]
    simp
  refine ⟨by rw [hnc], ?_, ?_⟩
  · unfold validateMapping
    dsimp only
    rw [hnc]
    simp only [Bool.false_eq_true, if_false]
    split_ifs <;> simp
  · unfold validateMapping
    dsimp only
    rw [hnc]
    simp only [Bool.false_eq_true, if_false]
    split_ifs <;> omega

def c10Input : RawMapping :=
  { cnName := "测试", fieldName := "1abc", group := "general",
    dtype := "string", role := "dimension", aggregation := "none" }

theorem c10_witness :
    (checkNamingConvention c10Input.fieldName).1 = false ∧
    ("命名规范: " ++ (checkNamingConvention c10Input.fieldName).2) ∈
      (validateMapping c10Input).issues ∧
    (validateMapping c10Input).overallScore ≤ 80 :=
  c10_leading_char c10Input '1' ['a', 'b', 'c'] (by decide) (by decide)

/-! ## Claim C6 -/

/-- Claim C6: the rule list is sorted once by descending priority with
equal-priority ties kept in declaration order (first conjunct, checked on the
index-tagged sorted list), and for a field name the engine returns the
classification of the first matching rule of that sorted list — every rule
before it fails, evaluation stops there — and falls back to group general,
kind string, no token when nothing matches. -/
theorem c6_pattern_engine (name : String) :
    sortedIdxPatterns.Pairwise
      (fun a b => b.2.prio < a.2.prio ∨ (a.2.prio = b.2.prio ∧ a.1 < b.1)) ∧
    ((∃ pre r suf, sortedPatterns = pre ++ r :: suf ∧ evalTrig r.trig name = true ∧
        (∀ r' ∈ pre, evalTrig r'.trig name = false) ∧
        patternClassify name = (r.group, r.kind, r.token)) ∨
      ((∀ r ∈ sortedPatterns, evalTrig r.trig name = false) ∧
        patternClassify name = ("general", "string", none))) := by
  constructor
  · decide
  · rcases find_first_spec (fun r => evalTrig r.trig name) sortedPatterns with
      ⟨pre, r, suf, hl, hr, hpre, hfind⟩ | ⟨hall, hfind⟩
    · left
      exact ⟨pre, r, suf, hl, by simpa using hr, fun a ha => by simpa using hpre a ha,
        by simp [patternClassify, patternFind, hfind]⟩
    · right
      exact ⟨fun a ha => by simpa using hall a ha,
        by simp [patternClassify, patternFind, hfind]⟩

/-! ## Claim C7 -/

/-- Claim C7: a source name found in the merged mapping store is classified
from the stored entry alone — canonical name, group, kind and description come
from the store, the phrase dictionary is irrelevant (analyzer path), and on the
ai_mapper path an exact hit returns the stored triple for every hash function
and every sample list, so repeated classification is bit-for-bit identical. -/
theorem c7_exact_precedence :
    (∀ (store : Store) (phr phr' : List (String × String)) (col : String) (s : ColSummary)
        (e : StoreEntry), lookupStore store col = some e →
        buildCore store phr col s = buildCore store phr' col s ∧
        (buildCore store phr col s).fieldName = e.enName ∧
        (buildCore store phr col s).group = e.group ∧
        (buildCore store phr col s).dtype = e.dtype ∧
        (buildCore store phr col s).description = e.description) ∧
    (∀ (name : String) (t : String × String × String), exactLookup name = some t →
        ∀ (hashF hashF' : String → Nat) (sv sv' : Option (List String)),
          analyzeFieldWith hashF name sv = analyzeFieldWith hashF' name sv' ∧
          (analyzeFieldWith hashF name sv).enName = t.1 ∧
          (analyzeFieldWith hashF name sv).group = t.2.1 ∧
          (analyzeFieldWith hashF name sv).dtype = t.2.2 ∧
          (analyzeFieldWith hashF name sv).description = name ++ " (exact match)") := by
  constructor
  · intro store phr phr' col s e he
    refine ⟨?_, ?_, ?_, ?_, ?_⟩ <;> simp [buildCore, he, coreWithNames]
  · intro name t ht hashF hashF' sv sv'
    refine ⟨?_, ?_, ?_, ?_, ?_⟩ <;> simp [analyzeFieldWith, ht]

def c7Store : Store :=
  [("机构", { enName := "organization", group := "organization", dtype := "string",
              description := "机构字段" })]

theorem c7_witness :
    buildCore c7Store [("a", "b")] "机构" ⟨"object", 0, none⟩ =
      buildCore c7Store [] "机构" ⟨"object", 0, none⟩ ∧
    (buildCore c7Store [("a", "b")] "机构" ⟨"object", 0, none⟩).fieldName = "organization" ∧
    (analyzeFieldWith (fun _ => 0) "保单号" (some ["1"])).enName = "policy_number" ∧
    analyzeFieldWith (fun _ => 0) "保单号" (some ["1"]) =
      analyzeFieldWith (fun _ => 3) "保单号" none :=
  ⟨(c7_exact_precedence.1 c7Store [("a", "b")] [] "机构" ⟨"object", 0, none⟩
      ⟨"organization", "organization", "string", "机构字段"⟩ (by decide)).1,
   (c7_exact_precedence.1 c7Store [("a", "b")] [] "机构" ⟨"object", 0, none⟩
      ⟨"organization", "organization", "string", "机构字段"⟩ (by decide)).2.1,
   (c7_exact_precedence.2 "保单号" ("policy_number", "policy", "string") (by decide)
      (fun _ => 0) (fun _ => 3) (some ["1"]) none).2.1,
   (c7_exact_precedence.2 "保单号" ("policy_number", "policy", "string") (by decide)
      (fun _ => 0) (fun _ => 3) (some ["1"]) none).1⟩

/-! ## Claim C3 -/

theorem specResolve_length : ∀ (hist names : List String),
    (specResolve hist names).length = names.length := by
  intro hist names
  induction names generalizing hist with
  | nil => rfl
  | cons nm rest ih => simp [specResolve, ih]

/-- Claim C3 (amended): the batch output has one entry per input column in the
same order, and its canonical names are exactly the specification resolver
applied to the candidate names: the first occurrence of a candidate is kept
unchanged and the k-th later occurrence receives the suffix underscore-k,
strictly increasing from 1 in first-seen order.  The claim's global pairwise
uniqueness does not hold: a candidate that already carries a suffixed form of
another candidate collides with the renamed output (see the counterexample). -/
theorem c3_uniqueness_resolver (store : Store) (phrases : List (String × String))
    (batch : List (String × ColSummary)) :
    (buildFieldMapping store phrases batch).1.map (fun e => e.fieldName) =
      specResolve [] (batch.map (fun b => (buildCore store phrases b.1 b.2).fieldName)) ∧
    (buildFieldMapping store phrases batch).1.length = batch.length := by
  have h1 : (buildFieldMapping store phrases batch).1.map (fun e => e.fieldName) =
      specResolve [] (batch.map (fun b => (buildCore store phrases b.1 b.2).fieldName)) := by
    unfold buildFieldMapping
    rw [buildLoop_names]
    exact resolveNames_eq_spec _ [] [] usedInv_nil
  refine ⟨h1, ?_⟩
  have h2 := congrArg List.length h1
  simpa [specResolve_length] using h2

def c3Store : Store :=
  [("A", ⟨"amount", "finance", "number", "dA"⟩),
   ("B", ⟨"amount_1", "finance", "number", "dB"⟩),
   ("C", ⟨"amount", "finance", "number", "dC"⟩)]

def c3Batch : List (String × ColSummary) :=
  [("A", ⟨"object", 0, none⟩), ("B", ⟨"object", 0, none⟩), ("C", ⟨"object", 0, none⟩)]

/-- Claim C3 counterexample: with stored candidates amount, amount_1, amount
the resolver renames the third entry to amount_1, colliding with the second —
the output canonical names are not pairwise unique. -/
theorem c3_counterexample :
    (buildFieldMapping c3Store [] c3Batch).1.map (fun e => e.fieldName) =
      ["amount", "amount_1", "amount_1"] ∧
    ¬ ((buildFieldMapping c3Store [] c3Batch).1.map (fun e => e.fieldName)).Nodup := by
  exact ⟨by decide, by decide⟩

/-! ## Claim C2 -/

/-- Claim C2 (amended): when the store lookup misses and no phrase matches, the
analyzer reports the field in the unresolved list, but the canonical name it
returns is the placeholder string unknown_field (with the resolved flag false)
and the ai_mapper path generates the snake-cleaned placeholder
field_(hash mod 10000) — not an unresolved sentinel distinct from the
placeholder names the validator flags. -/
theorem c2_unresolved_placeholder :
    (∀ (store : Store) (phrases : List (String × String)) (col : String),
        lookupStore store col = none →
        (∀ kv ∈ phrases, occursIn kv.1 col = false) →
        generateAliasFromCn store phrases col = ("unknown_field", false)) ∧
    (∀ (store : Store) (phrases : List (String × String))
        (batch : List (String × ColSummary)) (col : String) (s : ColSummary),
        (col, s) ∈ batch → (buildCore store phrases col s).isMapped = false →
        col ∈ (buildFieldMapping store phrases batch).2) ∧
    (∀ (hashF : String → Nat) (name : String) (sv : Option (List String)),
        exactLookup name = none → (patternClassify name).2.2 = none →
        translateKW keywordMap name = [] →
        (analyzeFieldWith hashF name sv).enName =
          snakeClean ("field_" ++ toString (hashF name % 10000))) := by
  refine ⟨?_, ?_, ?_⟩
  · intro store phrases col hs hph
    unfold generateAliasFromCn
    rw [hs]
    have hz : aliasLoop (sortLen phrases) [] col = [] := by
      apply aliasLoop_of_no_match
      intro kv hkv
      exact hph kv ((mem_sortKey _ phrases kv).mp hkv)
    rw [hz]
    simp
  · intro store phrases batch col s hmem hun
    exact buildLoop_unknown_mem store phrases batch [] col s hmem hun
  · intro hashF name sv hex hterm htok
    unfold analyzeFieldWith
    rw [hex]
    dsimp only
    rw [hterm]
    unfold tokensName
    rw [htok]
    simp

/-- Claim C2 counterexample: a name matching nothing is given exactly the
placeholder canonical names the claim forbids — unknown_field on the analyzer
path and field_0 on the ai_mapper path — and the quality validator itself
rejects both as placeholder names. -/
theorem c2_counterexample :
    generateAliasFromCn [] [] "ABC" = ("unknown_field", false) ∧
    (checkNamingConvention "unknown_field").1 = false ∧
    (analyzeFieldWith (fun _ => 0) "ABC" none).enName = "field_0" ∧
    (checkNamingConvention "field_0").1 = false := by decide

theorem c2_witness :
    generateAliasFromCn [] [] "ABC" = ("unknown_field", false) ∧
    "ABC" ∈ (buildFieldMapping ([] : Store) [] [("ABC", ⟨"object", 0, none⟩)]).2 ∧
    (analyzeFieldWith (fun _ => 0) "ABC" none).enName =
      snakeClean ("field_" ++ toString ((fun _ : String => 0) "ABC" % 10000)) :=
  ⟨c2_unresolved_placeholder.1 [] [] "ABC" (by decide)
      (fun kv hkv => absurd hkv (List.not_mem_nil kv)),
   c2_unresolved_placeholder.2.1 [] [] [("ABC", ⟨"object", 0, none⟩)] "ABC"
      ⟨"object", 0, none⟩ (by simp) (by decide),
   c2_unresolved_placeholder.2.2 (fun _ => 0) "ABC" none (by decide) (by decide) (by decide)⟩

/-! ## Claim C8 -/

def roleKw : List String := ["评分", "等级", "分数", "级别", "系数"]

theorem coreWithNames_role (fieldEn group kind desc : String) (found : Bool) (col : String)
    (s : ColSummary) :
    (coreWithNames fieldEn group kind desc found col s).role =
      if containsAnyKw roleKw col then "dimension" else dtypeToRole s.dtypeStr := by
  have hall : containsAnyKw roleKw col =
      (containsAnyKw ["评分", "等级", "分数", "级别"] col || occursIn "系数" col) := by
    simp [containsAnyKw, roleKw, List.any_cons, Bool.or_assoc]
  unfold coreWithNames
  dsimp only
  rw [hall]
  cases h1 : containsAnyKw ["评分", "等级", "分数", "级别"] col <;>
    cases h2 : occursIn "系数" col <;> simp [h1, h2]

theorem buildCore_role (store : Store) (phrases : List (String × String)) (col : String)
    (s : ColSummary) :
    (buildCore store phrases col s).role =
      if containsAnyKw roleKw col then "dimension" else dtypeToRole s.dtypeStr := by
  unfold buildCore
  cases h : lookupStore store col
  · dsimp only
    exact coreWithNames_role _ _ _ _ _ _ _
  · exact coreWithNames_role _ _ _ _ _ _ _

theorem dtypeToRole_measure_iff (d : String) :
    (dtypeToRole d = "measure") ↔ (dtypeToKind d = "number") := by
  unfold dtypeToRole dtypeToKind
  by_cases h : (startsW "float" d || startsW "int" d) = true
  · simp [h]
  · rw [if_neg h, if_neg h]
    constructor
    · intro hh; exact absurd hh (by decide)
    · intro hh
      exfalso
      revert hh
      split_ifs <;> intro hh <;> exact absurd hh (by decide)

/-- Claim C8 (amended): the assigned role is dimension exactly when the column
name contains a rating/level/coefficient keyword, and otherwise measure exactly
when the pandas dtype string of the column is numeric (float/int).  On entries
not taken from the store this coincides with the claim — kind is then derived
from the same dtype string, so role = measure iff kind = number — but a
store-supplied kind can disagree with the column dtype, breaking the claimed
equivalence (see the counterexample). -/
theorem c8_role_assignment :
    (∀ (store : Store) (phrases : List (String × String))
        (batch : List (String × ColSummary)),
        (buildFieldMapping store phrases batch).1.map (fun e => e.role) =
          batch.map (fun b => if containsAnyKw roleKw b.1 then "dimension"
                              else dtypeToRole b.2.dtypeStr)) ∧
    (∀ (store : Store) (phrases : List (String × String)) (col : String) (s : ColSummary),
        lookupStore store col = none → containsAnyKw roleKw col = false →
        ((buildCore store phrases col s).role = "measure" ↔
          (buildCore store phrases col s).dtype = "number")) := by
  constructor
  · intro store phrases batch
    unfold buildFieldMapping
    rw [buildLoop_map_inv (fun e => e.role) (fun r nm => rfl) store phrases batch []]
    apply List.map_congr_left
    intro b _
    exact buildCore_role store phrases b.1 b.2
  · intro store phrases col s hnone hkw
    have hdty : (buildCore store phrases col s).dtype = dtypeToKind s.dtypeStr := by
      unfold buildCore
      rw [hnone]
      simp [coreWithNames]
    rw [buildCore_role, if_neg (by simp [hkw]), hdty]
    exact dtypeToRole_measure_iff s.dtypeStr

/-- Claim C8 counterexample: a store entry with kind number on a column whose
observed dtype is object produces role dimension, although the entry's kind is
number and the name contains no rating keyword — the claimed iff fails. -/
theorem c8_counterexample :
    ((buildFieldMapping [("X", ⟨"xname", "general", "number", "d"⟩)] []
        [("X", ⟨"object", 0, none⟩)]).1.map (fun e => (e.dtype, e.role))) =
      [("number", "dimension")] ∧
    containsAnyKw roleKw "X" = false := by decide

theorem c8_witness :
    (buildCore [] [] "X" ⟨"object", 0, none⟩).role = "measure" ↔
      (buildCore [] [] "X" ⟨"object", 0, none⟩).dtype = "number" :=
  c8_role_assignment.2 [] [] "X" ⟨"object", 0, none⟩ (by decide) (by decide)

/-! ## Claim C5 -/

/-- Claim C5 (amended): for a field whose name-derived kind is string and a
non-empty sample list, the kind is upgraded to number exactly when the sample
inference itself returns number AND the name contains a recognized quantity
keyword; and the sample inference returns number exactly when the first sample
is not date-like, the boolean vocabulary check fails, and STRICTLY more than
80 percent of the first 20 samples parse as numeric — the claim's at-least-80
percent threshold is not sufficient (see the counterexample). -/
theorem c5_number_upgrade (name v : String) (rest : List String) (hashF : String → Nat)
    (hex : exactLookup name = none) (hpc : (patternClassify name).2.1 = "string") :
    ((analyzeFieldWith hashF name (some (v :: rest))).dtype = "number" ↔
      (inferTypeFromSamples (v :: rest) = "number" ∧
        numberKeywords.any (fun kw => occursIn kw name) = true)) ∧
    (inferTypeFromSamples (v :: rest) = "number" ↔
      (dateLike v = false ∧ boolLike (v :: rest) = false ∧
        5 * numericCount (v :: rest) > 4 * ((v :: rest).take 20).length)) := by
  have hinfer : inferTypeFromSamples (v :: rest) = "number" ↔
      (dateLike v = false ∧ boolLike (v :: rest) = false ∧
        5 * numericCount (v :: rest) > 4 * ((v :: rest).take 20).length) := by
    simp only [inferTypeFromSamples]
    cases hd : dateLike v
    · rw [if_neg (by simp)]
      cases hb : boolLike (v :: rest)
      · rw [if_neg (by simp)]
        by_cases hn : 5 * numericCount (v :: rest) > 4 * ((v :: rest).take 20).length
        · simp [hn]
        · rw [if_neg hn]
          constructor
          · intro hh; exact absurd hh (by decide)
          · intro hh; exact absurd hh.2.2 hn
      · rw [if_pos rfl]
        constructor
        · intro hh; exact absurd hh (by decide)
        · intro hh; exact absurd hh.2.1 (by simp)
    · rw [if_pos rfl]
      constructor
      · intro hh; exact absurd hh (by decide)
      · intro hh; exact absurd hh.1 (by simp)
  refine ⟨?_, hinfer⟩
  unfold analyzeFieldWith
  rw [hex]
  dsimp only
  rw [hpc]
  rw [if_pos (by simp)]
  by_cases h1 : inferTypeFromSamples (v :: rest) = "datetime"
  · rw [if_pos (by simp [h1])]
    rw [h1]
    constructor
    · intro hh; exact absurd hh (by decide)
    · intro hh; exact absurd hh.1 (by decide)
  · by_cases h2 : inferTypeFromSamples (v :: rest) = "boolean"
    · rw [if_pos (by simp [h2])]
      rw [h2]
      constructor
      · intro hh; exact absurd hh (by decide)
      · intro hh; exact absurd hh.1 (by decide)
    · rw [if_neg (by simp [h1, h2])]
      by_cases h3 : inferTypeFromSamples (v :: rest) = "number"
      · rw [if_pos (by simp [h3])]
        by_cases h4 : numberKeywords.any (fun kw => occursIn kw name) = true
        · simp [h4, h3]
        · rw [if_neg h4]
          constructor
          · intro hh; exact absurd hh (by decide)
          · intro hh; exact absurd hh.2 h4
      · rw [if_neg (by simp [h3])]
        constructor
        · intro hh; exact absurd hh (by decide)
        · intro hh; exact absurd hh.1 h3

/-- Claim C5 counterexample: the name contains the quantity keyword, the
name-derived kind is string, and exactly 80 percent (4 of 5) of the samples
parse as numeric — at least 80 percent as the claim requires — yet the kind
stays string because the code demands strictly more than 80 percent. -/
theorem c5_counterexample :
    (analyzeFieldWith (fun _ => 0) "数量" (some ["1", "2", "3", "4", "x"])).dtype = "string" ∧
    (patternClassify "数量").2.1 = "string" ∧
    exactLookup "数量" = none ∧
    numberKeywords.any (fun kw => occursIn kw "数量") = true ∧
    5 * numericCount ["1", "2", "3", "4", "x"] ≥
      4 * ((["1", "2", "3", "4", "x"] : List String).take 20).length := by decide

theorem c5_witness :
    (analyzeFieldWith (fun _ => 0) "数量" (some ["1", "2", "3", "4", "5"])).dtype = "number" :=
  (c5_number_upgrade "数量" "1" ["2", "3", "4", "5"] (fun _ => 0)
      (by decide) (by decide)).1.mpr (by decide)

/-! ## Claim C9 -/

theorem tk_longest_aux :
    ∀ (l : List (String × String)) (name p tok : String),
      l.Pairwise (fun a b => b.1.length ≤ a.1.length) →
      (l.map Prod.fst).Nodup →
      (p, tok) ∈ l →
      occursIn p name = true →
      (∀ q tq, (q, tq) ∈ l → q ≠ p → occursIn q name = true → q.length < p.length) →
      tok ∈ tkRun l [] name := by
  intro l
  induction l with
  | nil => intro name p tok _ _ hmem _ _; exact absurd hmem (List.not_mem_nil _)
  | cons kv rest ih =>
    intro name p tok hpw hnd hmem hocc hlong
    obtain ⟨q, tq⟩ := kv
    by_cases hqp : q = p
    · subst hqp
      have htok : tq = tok := by
        rcases List.mem_cons.mp hmem with hh | hh
        · exact (congrArg Prod.snd hh).symm
        · exfalso
          have hp : q ∈ rest.map Prod.fst := by
            have := List.mem_map_of_mem Prod.fst hh
            simpa using this
          have hnotin : q ∉ rest.map Prod.fst := by
            rw [List.map_cons] at hnd
            exact (List.nodup_cons.mp hnd).1
          exact hnotin hp
      subst htok
      simp only [tkRun, hocc, if_pos]
      apply mem_tkRun
      simp
    · have hpn : (p, tok) ∈ rest := by
        rcases List.mem_cons.mp hmem with hh | hh
        · exact absurd (congrArg Prod.fst hh).symm hqp
        · exact hh
      have hlen : p.length ≤ q.length := (List.pairwise_cons.mp hpw).1 (p, tok) hpn
      have hqocc : occursIn q name = false := by
        cases hq : occursIn q name
        · rfl
        · have := hlong q tq (List.mem_cons_self _ _) hqp hq
          omega
      simp only [tkRun, hqocc, Bool.false_eq_true, if_false]
      refine ih name p tok (List.pairwise_cons.mp hpw).2 ?_ hpn hocc ?_
      · rw [List.map_cons] at hnd
        exact (List.nodup_cons.mp hnd).2
      · intro q' tq' h' hne ho
        exact hlong q' tq' (List.mem_cons_of_mem _ h') hne ho

/-- Claim C9 (amended): the greedy tokenizer never omits the token of a phrase
that occurs in the original name and is STRICTLY longer than every other
occurring dictionary phrase.  The claim's weaker premise — merely being one of
the longest occurring phrases — does not suffice: an equal-length overlapping
phrase sorted earlier can consume the span first (see the counterexample,
which uses the mapper's own dictionary). -/
theorem c9_tokenizer_longest (km : List (String × String)) (name p tok : String)
    (hnd : (km.map Prod.fst).Nodup) (hmem : (p, tok) ∈ km)
    (hocc : occursIn p name = true)
    (hlong : ∀ q tq, (q, tq) ∈ km → q ≠ p → occursIn q name = true →
      q.length < p.length) :
    tok ∈ translateKW km name := by
  unfold translateKW sortLen
  refine tk_longest_aux _ name p tok (pairwise_sortKey _ km) ?_
    ((mem_sortKey _ km _).mpr hmem) hocc ?_
  · exact ((perm_sortKey (fun kv : String × String => kv.1.length) km).map Prod.fst).nodup_iff.mpr hnd
  · intro q tq hq hne ho
    exact hlong q tq ((mem_sortKey _ km _).mp hq) hne ho

/-- Claim C9 counterexample: in the name 管理费用率 both 管理费 and 费用率 occur
and share the maximal occurring length 3; the equal-length phrase 管理费 is
sorted first, its removal leaves 用率, and the token expense_ratio of the
longest occurring phrase 费用率 is omitted from the output. -/
theorem c9_counterexample :
    ("费用率", "expense_ratio") ∈ keywordMap ∧
    occursIn "费用率" "管理费用率" = true ∧
    (keywordMap.all fun kv => !(occursIn kv.1 "管理费用率") || kv.1.length ≤ 3) = true ∧
    "费用率".length = 3 ∧
    "expense_ratio" ∉ translateKW keywordMap "管理费用率" ∧
    translateKW keywordMap "管理费用率" = ["admin_fee", "ratio"] := by
  refine ⟨by decide, by decide, by decide, by decide, by decide, by decide⟩

theorem c9_witness :
    "premium" ∈ translateKW [("保费", "premium")] "签单保费" :=
  c9_tokenizer_longest [("保费", "premium")] "签单保费" "保费" "premium"
    (by decide) (by decide) (by decide)
    (by
      intro q tq hq hne _
      rw [List.mem_singleton] at hq
      exact absurd (congrArg Prod.fst hq) hne)
